import Mathlib

/-
Verification development for the NIGHTWATCH dual-axis equatorial mount
controller.  The repository ships the OnStepX configuration header
(src/firmware/onstepx_config/Config.h); the motion-control core itself
(axis servo, trajectory planner, tracking engine, mount coordinator) is
owned by external firmware and is modelled here from the specification.
Configuration constants below are transcribed from Config.h.
-/

namespace Nightwatch

/-- Configured steps per degree for axis 1 (RA), Config.h line 49. -/
def AXIS1_STEPS_PER_DEGREE : ℚ := 24000

/-- Configured steps per degree for axis 2 (DEC), Config.h line 85. -/
def AXIS2_STEPS_PER_DEGREE : ℚ := 19200

/-- Desired slew rate for axis 1 in degrees per second, Config.h line 53. -/
def AXIS1_SLEW_RATE_DESIRED : ℚ := 4

/-- Seconds to reach the slew rate on axis 1, Config.h line 54. -/
def AXIS1_ACCELERATION_TIME : ℚ := 3

/-- Seconds for an emergency stop on axis 1, Config.h line 55. -/
def AXIS1_RAPID_STOP_TIME : ℚ := 2

/-- Desired slew rate for axis 2 in degrees per second, Config.h line 89. -/
def AXIS2_SLEW_RATE_DESIRED : ℚ := 4

/-- Seconds to reach the slew rate on axis 2, Config.h line 90. -/
def AXIS2_ACCELERATION_TIME : ℚ := 3

/-- Seconds for an emergency stop on axis 2, Config.h line 91. -/
def AXIS2_RAPID_STOP_TIME : ℚ := 2

/-- Axis 1 (RA) soft limit minimum in degrees, Config.h line 58. -/
def AXIS1_LIMIT_MIN : ℚ := -180

/-- Axis 1 (RA) soft limit maximum in degrees, Config.h line 59. -/
def AXIS1_LIMIT_MAX : ℚ := 180

/-- Axis 2 (DEC) soft limit minimum in degrees, Config.h line 94. -/
def AXIS2_LIMIT_MIN : ℚ := -90

/-- Axis 2 (DEC) soft limit maximum in degrees, Config.h line 95. -/
def AXIS2_LIMIT_MAX : ℚ := 90

/-- Backlash takeup rate as a multiple of sidereal rate, Config.h line 107. -/
def TRACK_BACKLASH_RATE : ℚ := 25

/-- Degrees past the meridian allowed on the east side, Config.h line 122. -/
def AXIS1_PAST_MERIDIAN_LIMIT_E : ℚ := 15

/-- Degrees past the meridian allowed on the west side, Config.h line 123. -/
def AXIS1_PAST_MERIDIAN_LIMIT_W : ℚ := 15

/-- Length of the sidereal day in seconds, used by the tracking-rate note
in Config.h line 220. -/
def siderealDaySeconds : ℚ := 86164

/-- Normal acceleration of axis 1 in degrees per second squared, implied by
the configured slew rate and acceleration time. -/
def axis1Acceleration : ℚ := AXIS1_SLEW_RATE_DESIRED / AXIS1_ACCELERATION_TIME

/-- Rapid-stop deceleration of axis 1 in degrees per second squared, implied
by the configured slew rate and rapid-stop time. -/
def axis1RapidStopDecel : ℚ := AXIS1_SLEW_RATE_DESIRED / AXIS1_RAPID_STOP_TIME

/-- Normal acceleration of axis 2 in degrees per second squared. -/
def axis2Acceleration : ℚ := AXIS2_SLEW_RATE_DESIRED / AXIS2_ACCELERATION_TIME

/-- Rapid-stop deceleration of axis 2 in degrees per second squared. -/
def axis2RapidStopDecel : ℚ := AXIS2_SLEW_RATE_DESIRED / AXIS2_RAPID_STOP_TIME

/-- Baseline RA step rate under sidereal tracking in steps per second,
as computed in the build notes of Config.h line 220. -/
def raTrackingStepsPerSec : ℚ := AXIS1_STEPS_PER_DEGREE * 360 / siderealDaySeconds

/-- Per-axis immutable configuration, as the design notes prescribe:
steps-per-degree, soft limits in degrees, slew rate, acceleration time and
rapid-stop time, all taken from Config.h. -/
structure AxisConfig where
  stepsPerDegree : ℚ
  softLimitMin : ℚ
  softLimitMax : ℚ
  slewRate : ℚ
  accelTime : ℚ
  rapidStopTime : ℚ
deriving DecidableEq

/-- Axis 1 (RA) configuration assembled from Config.h. -/
def axis1Config : AxisConfig :=
  { stepsPerDegree := AXIS1_STEPS_PER_DEGREE
    softLimitMin := AXIS1_LIMIT_MIN
    softLimitMax := AXIS1_LIMIT_MAX
    slewRate := AXIS1_SLEW_RATE_DESIRED
    accelTime := AXIS1_ACCELERATION_TIME
    rapidStopTime := AXIS1_RAPID_STOP_TIME }

/-- Axis 2 (DEC) configuration assembled from Config.h. -/
def axis2Config : AxisConfig :=
  { stepsPerDegree := AXIS2_STEPS_PER_DEGREE
    softLimitMin := AXIS2_LIMIT_MIN
    softLimitMax := AXIS2_LIMIT_MAX
    slewRate := AXIS2_SLEW_RATE_DESIRED
    accelTime := AXIS2_ACCELERATION_TIME
    rapidStopTime := AXIS2_RAPID_STOP_TIME }

/-- Modelled from the spec: the Unit Conversion Layer's angle-to-steps
direction, converting an axis angle in degrees to a motor step count using
the configured steps-per-degree, rounding to the nearest whole microstep.
The conversion code itself lives in the external firmware. -/
def degToSteps (c : AxisConfig) (angle : ℚ) : ℤ :=
  round (angle * c.stepsPerDegree)

/-- Modelled from the spec: the Unit Conversion Layer's steps-to-angle
direction, converting a motor step count back to an axis angle in degrees
via the configured steps-per-degree. -/
def stepsToDeg (c : AxisConfig) (steps : ℤ) : ℚ :=
  (steps : ℚ) / c.stepsPerDegree

/-- Error taxonomy for target validation (spec section 7): a target outside
the soft limits is rejected synchronously with `LimitExceeded`. -/
inductive MountError where
  | LimitExceeded
  | NoPierSideAvailable
deriving DecidableEq

/-- Operating mode of the mount (spec section 3, MountState). -/
inductive OperatingMode where
  | Idle
  | Tracking
  | Slewing
  | Homing
  | Parking
  | Parked
  | Fault
deriving DecidableEq

/-- Pier side of the mount (spec section 3, MountState). -/
inductive PierSide where
  | East
  | West
  | Unknown
deriving DecidableEq

/-- The opposite pier side, used when a meridian flip is issued. -/
def PierSide.opposite : PierSide → PierSide
  | PierSide.East => PierSide.West
  | PierSide.West => PierSide.East
  | PierSide.Unknown => PierSide.Unknown

/-- Modelled from the spec: the step-domain record of an accepted goto as
held in mount and axis state (start time, start and target step counts);
the full time-parameterised profile is produced by the Trajectory Planner
of the external firmware, modelled separately below. -/
structure PendingSegment where
  startTime : ℚ
  startPositionSteps : ℤ
  targetPositionSteps : ℤ
deriving DecidableEq

/-- Modelled from the spec: the MountState record — operating mode, pier
side, the active trajectory segment and the commanded position.  The
record itself lives in the external firmware. -/
structure MountState where
  operatingMode : OperatingMode
  pierSide : PierSide
  activeSegment : Option PendingSegment
  commandedPositionSteps : ℤ
deriving DecidableEq

/-- Motion regime of one axis servo: normal profile following, or an
explicit rapid-stop recovery after a limit violation. -/
inductive AxisMode where
  | normal
  | rapidStop
deriving DecidableEq

/-- Modelled from the spec: the per-axis servo state the claims refer to —
actual position in steps, velocity in steps per second, the motion regime
and the active segment. -/
structure AxisState where
  actualPositionSteps : ℤ
  velocityStepsPerSec : ℚ
  mode : AxisMode
  activeSegment : Option PendingSegment
deriving DecidableEq

/-- A target step count lies outside the configured soft limits when it is
below the degrees-to-steps conversion of the minimum or above that of the
maximum for its axis. -/
def targetOutsideLimits (c : AxisConfig) (targetSteps : ℤ) : Prop :=
  (targetSteps : ℚ) < c.softLimitMin * c.stepsPerDegree ∨
    c.softLimitMax * c.stepsPerDegree < (targetSteps : ℚ)

instance (c : AxisConfig) (t : ℤ) : Decidable (targetOutsideLimits c t) := by
  unfold targetOutsideLimits
  infer_instance

/-- Modelled from the spec: `setTarget` at the mount-coordinator level.
The requested target is validated against the axis soft limits before any
motion begins; a failing call returns `LimitExceeded` together with the
mount state it was given, a successful call records a new pending segment
and enters Slewing.  The coordinator code lives in the external firmware. -/
def setTarget (c : AxisConfig) (now : ℚ) (s : MountState) (targetSteps : ℤ) :
    Except MountError Unit × MountState :=
  if targetOutsideLimits c targetSteps then
    (Except.error MountError.LimitExceeded, s)
  else
    (Except.ok (),
      { operatingMode := OperatingMode.Slewing
        pierSide := s.pierSide
        activeSegment := some
          { startTime := now
            startPositionSteps := s.commandedPositionSteps
            targetPositionSteps := targetSteps }
        commandedPositionSteps := s.commandedPositionSteps })

/-- Modelled from the spec: `setTrajectory` at the axis-servo level —
replaces the active segment, failing with `LimitExceeded` if the segment's
target position lies outside the configured soft limits, leaving the axis
state untouched in that case.  The servo code lives in the external
firmware. -/
def setTrajectory (c : AxisConfig) (a : AxisState) (seg : PendingSegment) :
    Except MountError Unit × AxisState :=
  if targetOutsideLimits c seg.targetPositionSteps then
    (Except.error MountError.LimitExceeded, a)
  else
    (Except.ok (), { a with activeSegment := some seg })

/-- The soft-limit invariant on an axis position, stated in degrees as the
spec writes it: softLimitMin <= positionSteps/stepsPerDegree <=
softLimitMax. -/
def inSoftLimits (c : AxisConfig) (p : ℤ) : Prop :=
  c.softLimitMin ≤ (p : ℚ) / c.stepsPerDegree ∧
    (p : ℚ) / c.stepsPerDegree ≤ c.softLimitMax

instance (c : AxisConfig) (p : ℤ) : Decidable (inSoftLimits c p) := by
  unfold inSoftLimits
  infer_instance

/-- Rapid-stop deceleration of an axis in steps per second squared,
implied by the configured slew rate and rapid-stop time. -/
def rapidStopAccelSteps (c : AxisConfig) : ℚ :=
  c.slewRate * c.stepsPerDegree / c.rapidStopTime

/-- Sign of a rational number, as a rational number. -/
def rsign (x : ℚ) : ℚ :=
  if x < 0 then -1 else if 0 < x then 1 else 0

/-- Velocity after one tick of rapid-stop deceleration: ramp toward zero
at the rapid-stop rate, clamping at zero. -/
def rapidStopVel (c : AxisConfig) (dt v : ℚ) : ℚ :=
  if |v| ≤ rapidStopAccelSteps c * dt then 0
  else v - rsign v * rapidStopAccelSteps c * dt

/-- Modelled from the spec: one control tick of an axis servo, restricted
to what the soft-limit invariant needs.  A normal tick advances the
position by the commanded velocity; if the tick would end outside the soft
limits the axis immediately enters a rapid deceleration to stop.  During a
rapid-stop recovery the velocity ramps toward zero at the rapid-stop rate
and normal operation resumes only once the axis is stopped inside the
limits.  The control loop lives in the external firmware. -/
def tick (c : AxisConfig) (dt : ℚ) (a : AxisState) : AxisState :=
  match a.mode with
  | AxisMode.normal =>
      let p := a.actualPositionSteps + round (a.velocityStepsPerSec * dt)
      if inSoftLimits c p then
        { a with actualPositionSteps := p }
      else
        { a with actualPositionSteps := p, mode := AxisMode.rapidStop }
  | AxisMode.rapidStop =>
      let v := rapidStopVel c dt a.velocityStepsPerSec
      let p := a.actualPositionSteps + round (v * dt)
      if v = 0 ∧ inSoftLimits c p then
        { actualPositionSteps := p
          velocityStepsPerSec := 0
          mode := AxisMode.normal
          activeSegment := none }
      else
        { a with actualPositionSteps := p, velocityStepsPerSec := v }

/-- Sidereal tracking rate in degrees per second. -/
def siderealDegPerSec : ℚ := 360 / siderealDaySeconds

/-- Backlash takeup speed of an axis in steps per second:
TRACK_BACKLASH_RATE times the sidereal rate, in the axis's step domain. -/
def takeupRateSteps (c : AxisConfig) : ℚ :=
  TRACK_BACKLASH_RATE * siderealDegPerSec * c.stepsPerDegree

/-- Backlash-takeup status of an axis: normal motion, or takeup with the
backlash distance in steps still to be consumed. -/
inductive BacklashState where
  | normal
  | takeup (remainingSteps : ℚ)
deriving DecidableEq

/-- Modelled from the spec: one tick of backlash handling by the Tracking
Engine.  A sign change of the commanded velocity enters takeup with the
full configured backlash distance; while takeup distance remains the axis
moves at the takeup rate in the new direction and the remaining distance
is consumed; once consumed the axis resumes the commanded rate.  The
tracking engine lives in the external firmware. -/
def backlashTick (c : AxisConfig) (backlashDist dt vPrev vCmd : ℚ)
    (st : BacklashState) : ℚ × BacklashState :=
  if vPrev * vCmd < 0 then
    (rsign vCmd * takeupRateSteps c,
      BacklashState.takeup (backlashDist - takeupRateSteps c * dt))
  else
    match st with
    | BacklashState.normal => (vCmd, BacklashState.normal)
    | BacklashState.takeup r =>
        if r ≤ 0 then (vCmd, BacklashState.normal)
        else (rsign vCmd * takeupRateSteps c,
          BacklashState.takeup (r - takeupRateSteps c * dt))

/-- A time-parameterised trajectory segment produced by the Trajectory
Planner (spec section 3): start time, start position and velocity, target
position, cruise velocity and the durations of the acceleration, cruise
and deceleration phases, in real-valued step-domain kinematics. -/
structure TrajectorySegment where
  startTime : ℝ
  startPosition : ℝ
  startVelocity : ℝ
  targetPosition : ℝ
  cruiseVelocity : ℝ
  accelTime : ℝ
  cruiseTime : ℝ
  decelTime : ℝ

/-- Total duration of a trajectory segment. -/
def TrajectorySegment.duration (s : TrajectorySegment) : ℝ :=
  s.accelTime + s.cruiseTime + s.decelTime

/-- Maximum velocity of an axis in steps per second, from the configured
slew rate. -/
noncomputable def vmaxSteps (c : AxisConfig) : ℝ :=
  (c.slewRate : ℝ) * (c.stepsPerDegree : ℝ)

/-- Acceleration of an axis in steps per second squared, from the
configured slew rate and acceleration time. -/
noncomputable def accelSteps (c : AxisConfig) : ℝ :=
  vmaxSteps c / (c.accelTime : ℝ)

/-- Mirror image of a trajectory segment: the same velocity profile
traversed in the opposite direction — positions and velocities negated,
phase durations kept. -/
def TrajectorySegment.reflect (s : TrajectorySegment) : TrajectorySegment :=
  { startTime := s.startTime
    startPosition := -s.startPosition
    startVelocity := -s.startVelocity
    targetPosition := -s.targetPosition
    cruiseVelocity := -s.cruiseVelocity
    accelTime := s.accelTime
    cruiseTime := s.cruiseTime
    decelTime := s.decelTime }

open Classical in
/-- Modelled from the spec: the forward-direction core of the Trajectory
Planner.  It builds a trapezoidal profile (accelerate to the cruise
velocity, cruise until the remaining distance equals the stopping
distance, decelerate to arrive with zero velocity); when the distance is
too short the profile degenerates to a triangular ramp whose peak
velocity is solved so that the acceleration and deceleration distances
sum to the total distance at the configured acceleration limit.  The
planner code lives in the external firmware. -/
noncomputable def planFwd (c : AxisConfig) (startPos startVel target : ℝ) :
    TrajectorySegment :=
  let vmax := vmaxSteps c
  let a := accelSteps c
  let d := target - startPos
  let dAccel := (vmax ^ 2 - startVel ^ 2) / (2 * a)
  let dDecel := vmax ^ 2 / (2 * a)
  if dAccel + dDecel ≤ d then
    { startTime := 0
      startPosition := startPos
      startVelocity := startVel
      targetPosition := target
      cruiseVelocity := vmax
      accelTime := (vmax - startVel) / a
      cruiseTime := (d - dAccel - dDecel) / vmax
      decelTime := vmax / a }
  else
    let vpeak := Real.sqrt (a * d + startVel ^ 2 / 2)
    { startTime := 0
      startPosition := startPos
      startVelocity := startVel
      targetPosition := target
      cruiseVelocity := vpeak
      accelTime := (vpeak - startVel) / a
      cruiseTime := 0
      decelTime := vpeak / a }

open Classical in
/-- Modelled from the spec: `plan` of the Trajectory Planner — a pure
function of the current position and velocity, the target, and the axis's
configured velocity and acceleration limits, sign-aware as the
specification's velocity-profile algorithm prescribes: a backward move is
planned as the mirror image of the corresponding forward move, so the
same ramp-cruise-ramp structure holds in either direction.  The planner
code lives in the external firmware. -/
noncomputable def plan (c : AxisConfig) (startPos startVel target : ℝ) :
    TrajectorySegment :=
  if target < startPos then
    (planFwd c (-startPos) (-startVel) (-target)).reflect
  else
    planFwd c startPos startVel target

open Classical in
/-- Modelled from the spec: stretching a planned segment to the shared
end time of a coordinated two-axis call — the phase durations are scaled
up to the shared duration and the cruise velocity is scaled down by the
same factor; a segment with no motion idles for the shared duration. -/
noncomputable def TrajectorySegment.stretchTo (s : TrajectorySegment)
    (T : ℝ) : TrajectorySegment :=
  if s.duration = 0 then
    { s with
      cruiseVelocity := 0
      accelTime := 0
      cruiseTime := T
      decelTime := 0 }
  else
    { s with
      cruiseVelocity := s.cruiseVelocity * (s.duration / T)
      accelTime := s.accelTime * (T / s.duration)
      cruiseTime := s.cruiseTime * (T / s.duration)
      decelTime := s.decelTime * (T / s.duration) }

/-- Velocity at the end of a segment's profile under the axis
acceleration: the cruise velocity less one deceleration ramp. -/
noncomputable def segEndVelocity (c : AxisConfig) (s : TrajectorySegment) : ℝ :=
  s.cruiseVelocity - accelSteps c * s.decelTime

/-- Signed distance covered by a segment's profile under the axis
acceleration: the acceleration ramp, the cruise phase and the
deceleration ramp. -/
noncomputable def segDistance (c : AxisConfig) (s : TrajectorySegment) : ℝ :=
  (s.startVelocity * s.accelTime + accelSteps c * s.accelTime ^ 2 / 2) +
    s.cruiseVelocity * s.cruiseTime +
    (s.cruiseVelocity * s.decelTime - accelSteps c * s.decelTime ^ 2 / 2)

/-- Modelled from the spec: pier-side selection for a goto.  The target
hour angle (degrees past the meridian, measured for the current pier
side) is reachable on the current side only within the configured
past-meridian limit; otherwise, if the 180-degree-flipped hour angle is
reachable on the opposite side, the coordinator selects the opposite
side (a meridian flip); otherwise no pier side is available.  The
coordinator code lives in the external firmware. -/
def choosePierSide (current : PierSide) (haTargetDeg : ℚ) : Option PierSide :=
  if -180 ≤ haTargetDeg ∧ haTargetDeg ≤ AXIS1_PAST_MERIDIAN_LIMIT_E then
    some current
  else if -180 ≤ haTargetDeg - 180 ∧
      haTargetDeg - 180 ≤ AXIS1_PAST_MERIDIAN_LIMIT_W then
    some current.opposite
  else
    none

/-- A per-axis command issued by the Mount Coordinator: the planned
segment together with the time at which the axis is to arrive. -/
structure AxisCommand where
  seg : TrajectorySegment
  arrivalTime : ℝ

/-- Modelled from the spec: the single coordinated two-axis Trajectory
Planner call.  Both axes are planned in one call; the shared end time is
the later of the two segment durations, and the faster axis's segment is
stretched to that duration, so both issued segments genuinely end
simultaneously. -/
noncomputable def coordinatedGoto (now raPos raTarget decPos decTarget : ℝ) :
    AxisCommand × AxisCommand :=
  let s1 := plan axis1Config raPos 0 raTarget
  let s2 := plan axis2Config decPos 0 decTarget
  let T := max s1.duration s2.duration
  (⟨s1.stretchTo T, now + T⟩, ⟨s2.stretchTo T, now + T⟩)

/-- Modelled from the spec: goto handling by the Mount Coordinator.  A
pier side is chosen for the target hour angle under the past-meridian
limits; when the chosen side is the opposite one, the goto is issued as a
meridian flip — a single coordinated two-axis call in which the RA axis
retargets to the flipped hour angle and the DEC axis performs the
180-degree-equivalent rotation.  The coordinator code lives in the
external firmware. -/
noncomputable def handleGoto (now : ℝ) (current : PierSide)
    (haCurrentDeg haTargetDeg decPosSteps : ℚ) :
    Option (PierSide × AxisCommand × AxisCommand) :=
  match choosePierSide current haTargetDeg with
  | none => none
  | some side =>
      if side = current then
        some (side, coordinatedGoto now
          ((haCurrentDeg * AXIS1_STEPS_PER_DEGREE : ℚ) : ℝ)
          ((haTargetDeg * AXIS1_STEPS_PER_DEGREE : ℚ) : ℝ)
          ((decPosSteps : ℚ) : ℝ)
          ((decPosSteps : ℚ) : ℝ))
      else
        some (side, coordinatedGoto now
          ((haCurrentDeg * AXIS1_STEPS_PER_DEGREE : ℚ) : ℝ)
          (((haTargetDeg - 180) * AXIS1_STEPS_PER_DEGREE : ℚ) : ℝ)
          ((decPosSteps : ℚ) : ℝ)
          (((decPosSteps + 180 * AXIS2_STEPS_PER_DEGREE : ℚ)) : ℝ))

/-- Evaluation lemma: the RA axis maximum velocity is 96000 steps per
second. -/
theorem vmaxSteps_ra : vmaxSteps axis1Config = 96000 := by
  norm_num [vmaxSteps, axis1Config, AXIS1_SLEW_RATE_DESIRED,
    AXIS1_STEPS_PER_DEGREE]

/-- Evaluation lemma: the RA axis acceleration is 32000 steps per second
squared. -/
theorem accelSteps_ra : accelSteps axis1Config = 32000 := by
  norm_num [accelSteps, vmaxSteps, axis1Config, AXIS1_SLEW_RATE_DESIRED,
    AXIS1_STEPS_PER_DEGREE, AXIS1_ACCELERATION_TIME]

/-- Evaluation lemma: the DEC axis maximum velocity is 76800 steps per
second. -/
theorem vmaxSteps_dec : vmaxSteps axis2Config = 76800 := by
  norm_num [vmaxSteps, axis2Config, AXIS2_SLEW_RATE_DESIRED,
    AXIS2_STEPS_PER_DEGREE]

/-- Evaluation lemma: the DEC axis acceleration is 25600 steps per second
squared. -/
theorem accelSteps_dec : accelSteps axis2Config = 25600 := by
  norm_num [accelSteps, vmaxSteps, axis2Config, AXIS2_SLEW_RATE_DESIRED,
    AXIS2_STEPS_PER_DEGREE, AXIS2_ACCELERATION_TIME]

/-- Unfolding lemma: a non-backward move is planned by the forward core
of the planner. -/
theorem plan_forward_eval (c : AxisConfig) (p0 v0 tgt : ℝ) (h : ¬ tgt < p0) :
    plan c p0 v0 tgt = planFwd c p0 v0 tgt := by
  unfold plan
  rw [if_neg h]

/-- Unfolding lemma: a backward move is planned as the mirror image of
the corresponding forward move. -/
theorem plan_backward_eval (c : AxisConfig) (p0 v0 tgt : ℝ) (h : tgt < p0) :
    plan c p0 v0 tgt = (planFwd c (-p0) (-v0) (-tgt)).reflect := by
  unfold plan
  rw [if_pos h]

/-- Unfolding lemma for the planner's trapezoidal branch: when the
distance suffices, the profile accelerates to the cruise velocity,
cruises, and decelerates. -/
theorem planFwd_trapezoid (c : AxisConfig) (p0 v0 tgt : ℝ)
    (h : (vmaxSteps c ^ 2 - v0 ^ 2) / (2 * accelSteps c) +
      vmaxSteps c ^ 2 / (2 * accelSteps c) ≤ tgt - p0) :
    planFwd c p0 v0 tgt =
      { startTime := 0
        startPosition := p0
        startVelocity := v0
        targetPosition := tgt
        cruiseVelocity := vmaxSteps c
        accelTime := (vmaxSteps c - v0) / accelSteps c
        cruiseTime := (tgt - p0 -
          (vmaxSteps c ^ 2 - v0 ^ 2) / (2 * accelSteps c) -
          vmaxSteps c ^ 2 / (2 * accelSteps c)) / vmaxSteps c
        decelTime := vmaxSteps c / accelSteps c } := by
  simp only [planFwd]
  rw [if_pos h]

/-- Unfolding lemma for the planner's triangular branch: when the distance
is too short for a full trapezoid, the profile has no cruise phase and its
peak velocity is the square root solving the distance equation. -/
theorem plan_triangular (c : AxisConfig) (p0 v0 tgt : ℝ) (hf : p0 ≤ tgt)
    (h : ¬ ((vmaxSteps c ^ 2 - v0 ^ 2) / (2 * accelSteps c) +
      vmaxSteps c ^ 2 / (2 * accelSteps c) ≤ tgt - p0)) :
    plan c p0 v0 tgt =
      { startTime := 0
        startPosition := p0
        startVelocity := v0
        targetPosition := tgt
        cruiseVelocity := Real.sqrt (accelSteps c * (tgt - p0) + v0 ^ 2 / 2)
        accelTime := (Real.sqrt (accelSteps c * (tgt - p0) + v0 ^ 2 / 2) - v0) /
          accelSteps c
        cruiseTime := 0
        decelTime := Real.sqrt (accelSteps c * (tgt - p0) + v0 ^ 2 / 2) /
          accelSteps c } := by
  rw [plan_forward_eval c p0 v0 tgt (not_lt.mpr hf)]
  simp only [planFwd]
  rw [if_neg h]

/-- Unfolding lemma: reflecting a segment keeps its duration. -/
theorem duration_reflect (s : TrajectorySegment) :
    s.reflect.duration = s.duration := rfl

/-- Stretching a segment to a shared end time gives a segment of exactly
that duration, whether or not the original segment moved at all. -/
theorem duration_stretchTo (s : TrajectorySegment) (T : ℝ) :
    (s.stretchTo T).duration = T := by
  unfold TrajectorySegment.stretchTo
  by_cases h : s.duration = 0
  · rw [if_pos h]
    show (0 : ℝ) + T + 0 = T
    ring
  · rw [if_neg h]
    show s.accelTime * (T / s.duration) + s.cruiseTime * (T / s.duration) +
      s.decelTime * (T / s.duration) = T
    unfold TrajectorySegment.duration at h ⊢
    field_simp
    ring

/-- Evaluation lemma: the square root of 768000000 is 16000 times the
square root of 3. -/
theorem sqrt_768000000 : Real.sqrt 768000000 = 16000 * Real.sqrt 3 := by
  rw [show (768000000 : ℝ) = 16000 ^ 2 * 3 by norm_num,
    Real.sqrt_mul (by positivity), Real.sqrt_sq (by norm_num)]

/-- Evaluation lemma: the square root of 4608000000 is 48000 times the
square root of 2. -/
theorem sqrt_4608000000 : Real.sqrt 4608000000 = 48000 * Real.sqrt 2 := by
  rw [show (4608000000 : ℝ) = 48000 ^ 2 * 2 by norm_num,
    Real.sqrt_mul (by positivity), Real.sqrt_sq (by norm_num)]

/-- Bound lemma: the square root of 3 lies strictly below 2. -/
theorem sqrt_three_lt_two : Real.sqrt 3 < 2 := by
  have h4 : Real.sqrt 4 = 2 := by
    rw [show (4 : ℝ) = 2 ^ 2 by norm_num, Real.sqrt_sq (by norm_num)]
  calc Real.sqrt 3 < Real.sqrt 4 := Real.sqrt_lt_sqrt (by norm_num) (by norm_num)
    _ = 2 := h4

/-- Bound lemma: the square root of 2 lies strictly above 1. -/
theorem one_lt_sqrt_two : 1 < Real.sqrt 2 := by
  have h1 : Real.sqrt 1 = 1 := Real.sqrt_one
  calc (1 : ℝ) = Real.sqrt 1 := h1.symm
    _ < Real.sqrt 2 := Real.sqrt_lt_sqrt (by norm_num) (by norm_num)

/-- C8: for both axes the configured steps-per-degree constant equals the
stated reduction chain divided by 360 exactly: axis 1 has
200 steps x 16 microsteps x 27 gearbox x 100 harmonic / 360 = 24000 and
axis 2 has 200 x 16 x 27 x 80 / 360 = 19200. -/
theorem stepsPerDegree_matches_reduction_chain :
    AXIS1_STEPS_PER_DEGREE = 200 * 16 * 27 * 100 / 360 ∧
    AXIS1_STEPS_PER_DEGREE = 24000 ∧
    AXIS2_STEPS_PER_DEGREE = 200 * 16 * 27 * 80 / 360 ∧
    AXIS2_STEPS_PER_DEGREE = 19200 := by
  refine ⟨?_, ?_, ?_, ?_⟩ <;> norm_num [AXIS1_STEPS_PER_DEGREE, AXIS2_STEPS_PER_DEGREE]

/-- C9: on both axes the rapid-stop deceleration (4 deg/s over 2 s, giving
2 deg/s^2) strictly exceeds the normal acceleration (4 deg/s over 3 s,
giving 4/3 deg/s^2), so an emergency stop from any positive velocity up to
the slew rate takes strictly less time and strictly less distance than a
normal deceleration from the same velocity. -/
theorem rapidStop_faster_than_normal_decel (v : ℚ) (hv : 0 < v)
    (hle : v ≤ AXIS1_SLEW_RATE_DESIRED) :
    axis1Acceleration < axis1RapidStopDecel ∧
    axis2Acceleration < axis2RapidStopDecel ∧
    v / axis1RapidStopDecel < v / axis1Acceleration ∧
    v ^ 2 / (2 * axis1RapidStopDecel) < v ^ 2 / (2 * axis1Acceleration) ∧
    v / axis2RapidStopDecel < v / axis2Acceleration ∧
    v ^ 2 / (2 * axis2RapidStopDecel) < v ^ 2 / (2 * axis2Acceleration) := by
  have hv2 : 0 < v ^ 2 := by positivity
  refine ⟨by norm_num [axis1Acceleration, axis1RapidStopDecel,
      AXIS1_SLEW_RATE_DESIRED, AXIS1_ACCELERATION_TIME, AXIS1_RAPID_STOP_TIME],
    by norm_num [axis2Acceleration, axis2RapidStopDecel,
      AXIS2_SLEW_RATE_DESIRED, AXIS2_ACCELERATION_TIME, AXIS2_RAPID_STOP_TIME],
    ?_, ?_, ?_, ?_⟩ <;>
  · simp only [axis1Acceleration, axis1RapidStopDecel, axis2Acceleration,
      axis2RapidStopDecel, AXIS1_SLEW_RATE_DESIRED, AXIS1_ACCELERATION_TIME,
      AXIS1_RAPID_STOP_TIME, AXIS2_SLEW_RATE_DESIRED, AXIS2_ACCELERATION_TIME,
      AXIS2_RAPID_STOP_TIME]
    rw [div_lt_div_iff (by norm_num) (by norm_num)]
    nlinarith

/-- Witness for C9 at the full slew rate of 4 degrees per second. -/
theorem rapidStop_faster_than_normal_decel_witness :
    (0 : ℚ) < 4 ∧ (4 : ℚ) ≤ AXIS1_SLEW_RATE_DESIRED ∧
    (4 : ℚ) / axis1RapidStopDecel < 4 / axis1Acceleration :=
  ⟨by norm_num, by norm_num [AXIS1_SLEW_RATE_DESIRED],
    (rapidStop_faster_than_normal_decel 4 (by norm_num)
      (by norm_num [AXIS1_SLEW_RATE_DESIRED])).2.2.1⟩

/-- C10: the RA-axis baseline sidereal step rate implied by the
configuration is 24000 steps/degree x 360 degrees / 86164 s =
8640000 / 86164 steps per second, which differs from the 100.3 steps/s
stated in the configuration notes by less than half of 0.1, hence rounds
to 100.3. -/
theorem raTrackingRate_rounds_to_note :
    raTrackingStepsPerSec = 8640000 / 86164 ∧
    |raTrackingStepsPerSec - 1003 / 10| < 1 / 20 := by
  constructor
  · norm_num [raTrackingStepsPerSec, AXIS1_STEPS_PER_DEGREE, siderealDaySeconds]
  · rw [abs_sub_lt_iff]
    norm_num [raTrackingStepsPerSec, AXIS1_STEPS_PER_DEGREE, siderealDaySeconds]

/-- C1: for every target position outside the configured soft-limit range
of its axis (RA limits of -180..180 degrees, DEC limits of -90..90
degrees, converted to steps through that axis's steps-per-degree), both
`setTarget` and `setTrajectory` fail with `LimitExceeded` and return the
mount and axis state unchanged, so operating mode, pier side, active
segment and commanded position are untouched by the failed call. -/
theorem setTarget_out_of_limits_rejected (c : AxisConfig) (now : ℚ)
    (s : MountState) (a : AxisState) (seg : PendingSegment) (t : ℤ)
    (hc : c = axis1Config ∨ c = axis2Config)
    (ht : targetOutsideLimits c t)
    (hseg : seg.targetPositionSteps = t) :
    setTarget c now s t = (Except.error MountError.LimitExceeded, s) ∧
    setTrajectory c a seg = (Except.error MountError.LimitExceeded, a) := by
  clear hc
  constructor
  · unfold setTarget
    rw [if_pos ht]
  · unfold setTrajectory
    rw [if_pos (hseg ▸ ht)]

/-- Witness for C1: a 200-degree RA target (4,800,000 steps) lies beyond
the 180-degree soft limit and is rejected with the state unchanged. -/
theorem setTarget_out_of_limits_rejected_witness :
    targetOutsideLimits axis1Config 4800000 ∧
    setTarget axis1Config 0
      { operatingMode := OperatingMode.Tracking
        pierSide := PierSide.East
        activeSegment := none
        commandedPositionSteps := 0 } 4800000 =
      (Except.error MountError.LimitExceeded,
        { operatingMode := OperatingMode.Tracking
          pierSide := PierSide.East
          activeSegment := none
          commandedPositionSteps := 0 }) :=
  ⟨by norm_num [targetOutsideLimits, axis1Config, AXIS1_LIMIT_MIN,
      AXIS1_LIMIT_MAX, AXIS1_STEPS_PER_DEGREE],
    (setTarget_out_of_limits_rejected axis1Config 0
      { operatingMode := OperatingMode.Tracking
        pierSide := PierSide.East
        activeSegment := none
        commandedPositionSteps := 0 }
      { actualPositionSteps := 0
        velocityStepsPerSec := 0
        mode := AxisMode.normal
        activeSegment := none }
      { startTime := 0, startPositionSteps := 0, targetPositionSteps := 4800000 }
      4800000 (Or.inl rfl)
      (by norm_num [targetOutsideLimits, axis1Config, AXIS1_LIMIT_MIN,
        AXIS1_LIMIT_MAX, AXIS1_STEPS_PER_DEGREE]) rfl).1⟩

/-- Unfolding lemma: a normal-mode tick advances the position and keeps
normal mode exactly when the new position is inside the soft limits. -/
theorem tick_normal_eval (c : AxisConfig) (dt : ℚ) (p : ℤ) (v : ℚ)
    (seg : Option PendingSegment) :
    tick c dt ⟨p, v, AxisMode.normal, seg⟩ =
      if inSoftLimits c (p + round (v * dt)) then
        ⟨p + round (v * dt), v, AxisMode.normal, seg⟩
      else
        ⟨p + round (v * dt), v, AxisMode.rapidStop, seg⟩ := rfl

/-- Unfolding lemma: a rapid-stop tick ramps the velocity down and leaves
the recovery exactly when stopped inside the soft limits. -/
theorem tick_rapidStop_eval (c : AxisConfig) (dt : ℚ) (p : ℤ) (v : ℚ)
    (seg : Option PendingSegment) :
    tick c dt ⟨p, v, AxisMode.rapidStop, seg⟩ =
      if rapidStopVel c dt v = 0 ∧
          inSoftLimits c (p + round (rapidStopVel c dt v * dt)) then
        ⟨p + round (rapidStopVel c dt v * dt), 0, AxisMode.normal, none⟩
      else
        ⟨p + round (rapidStopVel c dt v * dt), rapidStopVel c dt v,
          AxisMode.rapidStop, seg⟩ := rfl

/-- C2: for every axis configuration, tick length and axis state, a tick
that does not end in an explicit rapid-stop recovery ends with the
position inside the soft limits (softLimitMin <=
actualPositionSteps/stepsPerDegree <= softLimitMax); and a normal-mode
tick that would end with the bound violated immediately puts the axis
into the decelerate-to-stop regime. -/
theorem tick_soft_limit_invariant (c : AxisConfig) (dt : ℚ) (a : AxisState) :
    ((tick c dt a).mode = AxisMode.normal →
      inSoftLimits c (tick c dt a).actualPositionSteps) ∧
    (a.mode = AxisMode.normal →
      ¬ inSoftLimits c
        (a.actualPositionSteps + round (a.velocityStepsPerSec * dt)) →
      (tick c dt a).mode = AxisMode.rapidStop) := by
  rcases a with ⟨p, v, m, seg⟩
  cases m with
  | normal =>
    constructor
    · intro h
      rw [tick_normal_eval] at h ⊢
      by_cases hin : inSoftLimits c (p + round (v * dt))
      · rw [if_pos hin]
        exact hin
      · rw [if_neg hin] at h
        exact AxisMode.noConfusion h
    · intro _ hin
      rw [tick_normal_eval, if_neg hin]
  | rapidStop =>
    constructor
    · intro h
      rw [tick_rapidStop_eval] at h ⊢
      by_cases hstop : rapidStopVel c dt v = 0 ∧
          inSoftLimits c (p + round (rapidStopVel c dt v * dt))
      · rw [if_pos hstop]
        exact hstop.2
      · rw [if_neg hstop] at h
        exact AxisMode.noConfusion h
    · intro h
      exact AxisMode.noConfusion h

/-- Witness for C2: an axis at the 180-degree RA limit moving at the full
slew rate oversteps the limit within one one-second tick and the tick
switches the axis into the rapid-stop regime. -/
theorem tick_soft_limit_invariant_witness :
    ¬ inSoftLimits axis1Config (4320000 + round ((96000 : ℚ) * 1)) ∧
    (tick axis1Config 1
      { actualPositionSteps := 4320000
        velocityStepsPerSec := 96000
        mode := AxisMode.normal
        activeSegment := none }).mode = AxisMode.rapidStop :=
  ⟨by norm_num [inSoftLimits, axis1Config, AXIS1_LIMIT_MIN, AXIS1_LIMIT_MAX,
      AXIS1_STEPS_PER_DEGREE, round_eq],
    (tick_soft_limit_invariant axis1Config 1
      { actualPositionSteps := 4320000
        velocityStepsPerSec := 96000
        mode := AxisMode.normal
        activeSegment := none }).2 rfl
      (by norm_num [inSoftLimits, axis1Config, AXIS1_LIMIT_MIN,
        AXIS1_LIMIT_MAX, AXIS1_STEPS_PER_DEGREE, round_eq])⟩

/-- C5: for every axis angle within the soft limits of its axis,
converting the angle to motor steps with the configured steps-per-degree
and converting the step count back recovers the angle to within one
microstep's angular resolution (1/24000 degree on RA, 1/19200 degree on
DEC). -/
theorem angle_steps_roundtrip (c : AxisConfig) (angle : ℚ)
    (hc : c = axis1Config ∨ c = axis2Config)
    (h1 : c.softLimitMin ≤ angle) (h2 : angle ≤ c.softLimitMax) :
    |stepsToDeg c (degToSteps c angle) - angle| ≤ 1 / c.stepsPerDegree := by
  clear h1 h2
  have hs : 0 < c.stepsPerDegree := by
    rcases hc with rfl | rfl <;>
      norm_num [axis1Config, axis2Config, AXIS1_STEPS_PER_DEGREE,
        AXIS2_STEPS_PER_DEGREE]
  have hne : c.stepsPerDegree ≠ 0 := ne_of_gt hs
  have key : stepsToDeg c (degToSteps c angle) - angle =
      ((round (angle * c.stepsPerDegree) : ℚ) - angle * c.stepsPerDegree) /
        c.stepsPerDegree := by
    unfold stepsToDeg degToSteps
    rw [sub_div, mul_div_cancel_right₀ _ hne]
  rw [key, abs_div, abs_of_pos hs]
  have hb : |(round (angle * c.stepsPerDegree) : ℚ) -
      angle * c.stepsPerDegree| ≤ 1 / 2 := by
    rw [abs_sub_comm]
    exact abs_sub_round _
  have step1 := (div_le_div_iff_of_pos_right hs).mpr hb
  have step2 := (div_le_div_iff_of_pos_right hs).mpr
    (show (1 : ℚ) / 2 ≤ 1 by norm_num)
  exact le_trans step1 step2

/-- Witness for C5 at an RA angle of 100 degrees, inside the soft
limits. -/
theorem angle_steps_roundtrip_witness :
    axis1Config.softLimitMin ≤ (100 : ℚ) ∧
    (100 : ℚ) ≤ axis1Config.softLimitMax ∧
    |stepsToDeg axis1Config (degToSteps axis1Config 100) - 100| ≤
      1 / axis1Config.stepsPerDegree :=
  ⟨by norm_num [axis1Config, AXIS1_LIMIT_MIN],
    by norm_num [axis1Config, AXIS1_LIMIT_MAX],
    angle_steps_roundtrip axis1Config 100 (Or.inl rfl)
      (by norm_num [axis1Config, AXIS1_LIMIT_MIN])
      (by norm_num [axis1Config, AXIS1_LIMIT_MAX])⟩

/-- C7: whenever the commanded velocity of an axis changes sign, the
backlash tick automatically enters takeup and moves the axis at
TRACK_BACKLASH_RATE (25) times the sidereal rate in the new direction;
while takeup distance remains the axis keeps moving at that rate (the
commanded rate is not resumed) and the remaining distance is consumed at
the takeup rate; once the configured backlash distance has been fully
consumed the tick automatically leaves takeup and resumes the commanded
rate. -/
theorem backlash_takeup_behaviour (c : AxisConfig) (bd dt vPrev vCmd r : ℚ)
    (st : BacklashState) :
    (vPrev * vCmd < 0 →
      backlashTick c bd dt vPrev vCmd st =
        (rsign vCmd * takeupRateSteps c,
          BacklashState.takeup (bd - takeupRateSteps c * dt))) ∧
    (¬ vPrev * vCmd < 0 → 0 < r →
      backlashTick c bd dt vPrev vCmd (BacklashState.takeup r) =
        (rsign vCmd * takeupRateSteps c,
          BacklashState.takeup (r - takeupRateSteps c * dt))) ∧
    (¬ vPrev * vCmd < 0 → r ≤ 0 →
      backlashTick c bd dt vPrev vCmd (BacklashState.takeup r) =
        (vCmd, BacklashState.normal)) := by
  refine ⟨fun h => ?_, fun h hr => ?_, fun h hr => ?_⟩
  · unfold backlashTick
    rw [if_pos h]
  · unfold backlashTick
    rw [if_neg h]
    exact if_neg (not_le.mpr hr)
  · unfold backlashTick
    rw [if_neg h]
    exact if_pos hr

/-- Witness for C7: a sign change from +1 to -1 steps per second enters
takeup at the takeup rate; with 5 steps of takeup remaining the takeup
rate is kept; with none remaining the commanded rate resumes. -/
theorem backlash_takeup_behaviour_witness :
    ((1 : ℚ) * (-1) < 0 ∧
      backlashTick axis1Config 4000 1 1 (-1) BacklashState.normal =
        (rsign (-1) * takeupRateSteps axis1Config,
          BacklashState.takeup (4000 - takeupRateSteps axis1Config * 1))) ∧
    (¬ (1 : ℚ) * 1 < 0 ∧ (0 : ℚ) < 5 ∧
      backlashTick axis1Config 4000 1 1 1 (BacklashState.takeup 5) =
        (rsign 1 * takeupRateSteps axis1Config,
          BacklashState.takeup (5 - takeupRateSteps axis1Config * 1))) ∧
    (¬ (1 : ℚ) * 1 < 0 ∧ (0 : ℚ) ≤ 0 ∧
      backlashTick axis1Config 4000 1 1 1 (BacklashState.takeup 0) =
        (1, BacklashState.normal)) :=
  ⟨⟨by norm_num,
      (backlash_takeup_behaviour axis1Config 4000 1 1 (-1) 0
        BacklashState.normal).1 (by norm_num)⟩,
    ⟨by norm_num, by norm_num,
      (backlash_takeup_behaviour axis1Config 4000 1 1 1 5
        BacklashState.normal).2.1 (by norm_num) (by norm_num)⟩,
    ⟨by norm_num, le_refl 0,
      (backlash_takeup_behaviour axis1Config 4000 1 1 1 0
        BacklashState.normal).2.2 (by norm_num) (le_refl 0)⟩⟩

/-- C3 counterexample: planning a goto from rest at 0 steps to +24000
steps (1 degree of RA) with the configured 4 deg/s velocity limit and 3 s
acceleration time does NOT decelerate for 3 seconds: the required
deceleration phase lasts sqrt(3)/2, about 0.87 seconds, so the claimed
3-second deceleration is false at this input. -/
theorem goto_one_degree_decel_not_three_seconds :
    (plan axis1Config 0 0 24000).decelTime ≠ 3 := by
  have hne : ¬ ((vmaxSteps axis1Config ^ 2 - (0 : ℝ) ^ 2) /
      (2 * accelSteps axis1Config) +
      vmaxSteps axis1Config ^ 2 / (2 * accelSteps axis1Config) ≤
      (24000 : ℝ) - 0) := by
    rw [vmaxSteps_ra, accelSteps_ra]
    norm_num
  rw [plan_triangular axis1Config 0 0 24000 (by norm_num) hne]
  rw [accelSteps_ra]
  rw [show (32000 : ℝ) * ((24000 : ℝ) - 0) + (0 : ℝ) ^ 2 / 2 =
    768000000 by norm_num]
  rw [sqrt_768000000]
  have h2 : Real.sqrt 3 < 2 := sqrt_three_lt_two
  have h0 : 0 ≤ Real.sqrt 3 := Real.sqrt_nonneg 3
  intro h
  nlinarith

/-- C3 (amended): with the configured limits the 1-degree goto is too
short to reach the cruise velocity, so the planned profile is a
triangular ramp: it accelerates for sqrt(3)/2 seconds (within the 3-second
bound), has no cruise phase, decelerates for the same sqrt(3)/2 seconds,
and ends with velocity exactly zero having covered exactly the +24000
steps to the target. -/
theorem goto_one_degree_triangular_profile :
    (plan axis1Config 0 0 24000).accelTime = Real.sqrt 3 / 2 ∧
    (plan axis1Config 0 0 24000).accelTime ≤ 3 ∧
    (plan axis1Config 0 0 24000).cruiseTime = 0 ∧
    (plan axis1Config 0 0 24000).decelTime =
      (plan axis1Config 0 0 24000).accelTime ∧
    segEndVelocity axis1Config (plan axis1Config 0 0 24000) = 0 ∧
    (plan axis1Config 0 0 24000).startPosition +
      segDistance axis1Config (plan axis1Config 0 0 24000) = 24000 ∧
    (plan axis1Config 0 0 24000).targetPosition = 24000 := by
  have hne : ¬ ((vmaxSteps axis1Config ^ 2 - (0 : ℝ) ^ 2) /
      (2 * accelSteps axis1Config) +
      vmaxSteps axis1Config ^ 2 / (2 * accelSteps axis1Config) ≤
      (24000 : ℝ) - 0) := by
    rw [vmaxSteps_ra, accelSteps_ra]
    norm_num
  have hplan := plan_triangular axis1Config 0 0 24000 (by norm_num) hne
  rw [accelSteps_ra] at hplan
  rw [show (32000 : ℝ) * ((24000 : ℝ) - 0) + (0 : ℝ) ^ 2 / 2 =
    768000000 by norm_num] at hplan
  rw [sqrt_768000000] at hplan
  have hsq : Real.sqrt 3 * Real.sqrt 3 = 3 :=
    Real.mul_self_sqrt (by norm_num)
  have h2 : Real.sqrt 3 < 2 := sqrt_three_lt_two
  have h0 : 0 ≤ Real.sqrt 3 := Real.sqrt_nonneg 3
  rw [hplan]
  refine ⟨by ring, ?_, rfl, by ring, ?_, ?_, rfl⟩
  · show (16000 * Real.sqrt 3 - 0) / 32000 ≤ 3
    nlinarith
  · show 16000 * Real.sqrt 3 - accelSteps axis1Config *
      (16000 * Real.sqrt 3 / 32000) = 0
    rw [accelSteps_ra]
    ring
  · show (0 : ℝ) + ((0 * ((16000 * Real.sqrt 3 - 0) / 32000) +
      accelSteps axis1Config * ((16000 * Real.sqrt 3 - 0) / 32000) ^ 2 / 2) +
      16000 * Real.sqrt 3 * 0 +
      (16000 * Real.sqrt 3 * (16000 * Real.sqrt 3 / 32000) -
        accelSteps axis1Config * (16000 * Real.sqrt 3 / 32000) ^ 2 / 2)) =
      24000
    rw [accelSteps_ra]
    nlinarith

/-- C6 counterexample: with the axis already moving at the full slew rate
(96000 steps/s) and the target equal to the current position, the planned
segment has zero distance but NOT zero duration — its deceleration phase
alone is positive — so the claim fails for mount states in motion. -/
theorem setTarget_current_position_moving_not_zero_duration :
    (plan axis1Config 0 96000 0).targetPosition =
      (plan axis1Config 0 96000 0).startPosition ∧
    (plan axis1Config 0 96000 0).decelTime ≠ 0 := by
  have hne : ¬ ((vmaxSteps axis1Config ^ 2 - (96000 : ℝ) ^ 2) /
      (2 * accelSteps axis1Config) +
      vmaxSteps axis1Config ^ 2 / (2 * accelSteps axis1Config) ≤
      (0 : ℝ) - 0) := by
    rw [vmaxSteps_ra, accelSteps_ra]
    norm_num
  rw [plan_triangular axis1Config 0 96000 0 (by norm_num) hne]
  refine ⟨rfl, ?_⟩
  rw [accelSteps_ra]
  rw [show (32000 : ℝ) * ((0 : ℝ) - 0) + (96000 : ℝ) ^ 2 / 2 =
    4608000000 by norm_num]
  rw [sqrt_4608000000]
  have h1 : 1 < Real.sqrt 2 := one_lt_sqrt_two
  intro h
  nlinarith

/-- C6 (amended): for every mount state at rest (axis velocity zero)
whose current position equals the requested target, the planner yields a
segment of zero distance and zero duration on either axis, so no motion
occurs. -/
theorem setTarget_current_position_zero_segment (p : ℝ) :
    (plan axis1Config p 0 p).duration = 0 ∧
    (plan axis1Config p 0 p).targetPosition =
      (plan axis1Config p 0 p).startPosition ∧
    (plan axis2Config p 0 p).duration = 0 ∧
    (plan axis2Config p 0 p).targetPosition =
      (plan axis2Config p 0 p).startPosition := by
  have hne1 : ¬ ((vmaxSteps axis1Config ^ 2 - (0 : ℝ) ^ 2) /
      (2 * accelSteps axis1Config) +
      vmaxSteps axis1Config ^ 2 / (2 * accelSteps axis1Config) ≤ p - p) := by
    rw [vmaxSteps_ra, accelSteps_ra]
    norm_num
  have hne2 : ¬ ((vmaxSteps axis2Config ^ 2 - (0 : ℝ) ^ 2) /
      (2 * accelSteps axis2Config) +
      vmaxSteps axis2Config ^ 2 / (2 * accelSteps axis2Config) ≤ p - p) := by
    rw [vmaxSteps_dec, accelSteps_dec]
    norm_num
  rw [plan_triangular axis1Config p 0 p (le_refl p) hne1,
    plan_triangular axis2Config p 0 p (le_refl p) hne2]
  have hz1 : accelSteps axis1Config * (p - p) + (0 : ℝ) ^ 2 / 2 = 0 := by
    ring
  have hz2 : accelSteps axis2Config * (p - p) + (0 : ℝ) ^ 2 / 2 = 0 := by
    ring
  rw [hz1, hz2, Real.sqrt_zero]
  unfold TrajectorySegment.duration
  norm_num

/-- C4: with the RA axis at hour angle +14 degrees past the meridian, the
east past-meridian limit at 15 degrees and a target needing +20 further
degrees of east motion (target hour angle 34 degrees) on the current pier
side, the coordinator selects the opposite pier side and issues the goto
as a single coordinated two-axis call whose two segments share a common
end time: both issued segments last exactly 48 seconds (the RA segment,
43 seconds on its own, is stretched to the DEC segment's 48), and both
axis commands carry the same arrival time, so both axes arrive
simultaneously. -/
theorem meridian_flip_selects_opposite_side_coordinated :
    (handleGoto 0 PierSide.East 14 34 0).map (fun r => r.1) =
      some PierSide.West ∧
    (handleGoto 0 PierSide.East 14 34 0).map
        (fun r => r.2.1.seg.duration) = some 48 ∧
    (handleGoto 0 PierSide.East 14 34 0).map
        (fun r => r.2.2.seg.duration) = some 48 ∧
    (handleGoto 0 PierSide.East 14 34 0).map
        (fun r => r.2.1.arrivalTime) =
      (handleGoto 0 PierSide.East 14 34 0).map
        (fun r => r.2.2.arrivalTime) := by
  have hcp : choosePierSide PierSide.East 34 = some PierSide.West := by
    unfold choosePierSide
    rw [if_neg (by norm_num [AXIS1_PAST_MERIDIAN_LIMIT_E]),
      if_pos (by norm_num [AXIS1_PAST_MERIDIAN_LIMIT_W])]
    rfl
  have hA : ((14 * AXIS1_STEPS_PER_DEGREE : ℚ) : ℝ) = 336000 := by
    norm_num [AXIS1_STEPS_PER_DEGREE]
  have hB : (((34 - 180) * AXIS1_STEPS_PER_DEGREE : ℚ) : ℝ) = -3504000 := by
    norm_num [AXIS1_STEPS_PER_DEGREE]
  have hC : ((0 : ℚ) : ℝ) = 0 := by norm_num
  have hD : ((0 + 180 * AXIS2_STEPS_PER_DEGREE : ℚ) : ℝ) = 3456000 := by
    norm_num [AXIS2_STEPS_PER_DEGREE]
  have hs1 : (plan axis1Config 336000 0 (-3504000)).duration = 43 := by
    rw [plan_backward_eval axis1Config 336000 0 (-3504000) (by norm_num),
      duration_reflect,
      planFwd_trapezoid axis1Config (-336000) (-0) (-(-3504000))
        (by rw [vmaxSteps_ra, accelSteps_ra]; norm_num)]
    unfold TrajectorySegment.duration
    rw [vmaxSteps_ra, accelSteps_ra]
    norm_num
  have hs2 : (plan axis2Config 0 0 3456000).duration = 48 := by
    rw [plan_forward_eval axis2Config 0 0 3456000 (by norm_num),
      planFwd_trapezoid axis2Config 0 0 3456000
        (by rw [vmaxSteps_dec, accelSteps_dec]; norm_num)]
    unfold TrajectorySegment.duration
    rw [vmaxSteps_dec, accelSteps_dec]
    norm_num
  have hT : max (plan axis1Config 336000 0 (-3504000)).duration
      (plan axis2Config 0 0 3456000).duration = 48 := by
    rw [hs1, hs2]
    norm_num
  have hred : handleGoto 0 PierSide.East 14 34 0 =
      some (PierSide.West, coordinatedGoto 0 336000 (-3504000) 0 3456000) := by
    unfold handleGoto
    rw [hcp]
    dsimp only
    rw [if_neg (show ¬ (PierSide.West = PierSide.East) by decide)]
    rw [hA, hB, hC, hD]
  have hseg1 : (coordinatedGoto 0 336000 (-3504000) 0 3456000).1.seg.duration
      = 48 := by
    unfold coordinatedGoto
    dsimp only
    rw [duration_stretchTo]
    exact hT
  have hseg2 : (coordinatedGoto 0 336000 (-3504000) 0 3456000).2.seg.duration
      = 48 := by
    unfold coordinatedGoto
    dsimp only
    rw [duration_stretchTo]
    exact hT
  refine ⟨?_, ?_, ?_, ?_⟩
  · rw [hred]
    rfl
  · rw [hred]
    show some
      ((coordinatedGoto 0 336000 (-3504000) 0 3456000).1.seg.duration) =
      some (48 : ℝ)
    rw [hseg1]
  · rw [hred]
    show some
      ((coordinatedGoto 0 336000 (-3504000) 0 3456000).2.seg.duration) =
      some (48 : ℝ)
    rw [hseg2]
  · rw [hred]
    rfl

end Nightwatch
